import Mathlib

/-!
Shallow embedding of the payment-reconciliation core of the Artisan Apparel
backend (order controller, payment controller, Decred monitoring service and
the Payment model), together with proofs settling the specification claims.

Statuses are JS strings in the source, so they are `String` here; crypto
amounts are `ℚ`; timestamps are `ℕ` (an abstract clock value passed in for
`new Date()`); nullable columns are `Option`.
-/

namespace Artisan

/-- The persisted order record, restricted to the fields the reconciliation
code reads or writes (src/models/Order.js and orderController.js). -/
structure Order where
  payment_status : String
  order_status : String
  transaction_hash : Option String
  printful_order_id : Option String
deriving Repr, DecidableEq

/-- The persisted payment record, restricted to the fields the reconciliation
code reads or writes (src/models/Payment.js). -/
structure Payment where
  status : String
  expected_amount : ℚ
  received_amount : Option ℚ
  transaction_hash : Option String
  confirmations : ℕ
  detected_at : Option ℕ
  confirmed_at : Option ℕ
  expires_at : ℕ
deriving Repr, DecidableEq

/-- The `paymentData` argument of `handlePaymentUpdate`: the normalized
payment observation handed over by every monitor / webhook route. Absent
(`undefined`) fields are `none`; Sequelize `update` skips keys whose value is
`undefined`, so a `none` here leaves the stored column unchanged. -/
structure PaymentData where
  status : String
  received : Option ℚ
  txHash : Option String
  confirmations : Option ℕ
deriving Repr, DecidableEq

/-- Externally visible side-effect requests issued by the reconciliation
code: Printful order submission, the two emails, and monitor cancellation. -/
inductive Effect where
  | createFulfillment
  | confirmationEmail
  | cancellationEmail
  | stopMonitor (orderId : String)
deriving Repr, DecidableEq

/-- Sequelize semantics of `update({ field: value })` where `value` may be
`undefined`: an absent value leaves the stored column unchanged. -/
def jsSet {α : Type} (new old : Option α) : Option α :=
  match new with
  | some v => some v
  | none => old

/-- JS `x || d` for an optional numeric `x`: `undefined` and `0` are falsy. -/
def jsOrNat (x : Option ℕ) (d : ℕ) : ℕ :=
  match x with
  | some c => if c = 0 then d else c
  | none => d

/-- JS `x || d` for an optional rational amount: `undefined` and `0` are falsy. -/
def jsOrRat (x : Option ℚ) (d : ℚ) : ℚ :=
  match x with
  | some a => if a = 0 then d else a
  | none => d

/-- JS `x || d` for an optional string: `undefined` and `""` are falsy. -/
def jsOrStr (x d : Option String) : Option String :=
  match x with
  | some s => if s = "" then d else some s
  | none => d

/-- Result of one invocation of the reconciliation path: the new order record
(if the order was found), the new payment record, and the side effects
requested, in order. -/
structure UpdateResult where
  order : Option Order
  payment : Option Payment
  effects : List Effect
deriving Repr, DecidableEq

/-- `createPrintfulOrder` (orderController.js:254-291): submits the order to
Printful, then stores the returned id and moves the order to `production`.
The external call's outcome is passed in as `printful` (`.ok id` or
`.error ()`); on failure the function logs and rethrows, so the caller sees
`.error` and the order record is left as it was. The submission itself (the
side effect) has been issued in both cases. -/
def createPrintfulOrder (printful : Except Unit ℕ) (o : Order) :
    Except Unit Order × List Effect :=
  match printful with
  | .ok pid =>
      (.ok { o with printful_order_id := some (toString pid),
                    order_status := "production" },
        [Effect.createFulfillment])
  | .error _ => (.error (), [Effect.createFulfillment])

/-- `handlePaymentUpdate` (orderController.js:176-249). `now` models
`new Date()`; `printful` is the outcome of the Printful submission should the
confirmed branch reach it. A thrown error from `createPrintfulOrder` is
caught by the surrounding try/catch, so the remaining actions of the
confirmed branch (the confirmation email) are skipped and already-persisted
updates stay as they are. -/
def handlePaymentUpdate (now : ℕ) (printful : Except Unit ℕ)
    (order? : Option Order) (payment? : Option Payment) (pd : PaymentData) :
    UpdateResult :=
  match order? with
  | none => ⟨none, payment?, []⟩
  | some order =>
    if pd.status = "confirmed" then
      let payment' := payment?.map fun p =>
        { p with status := "confirmed",
                 received_amount := jsSet pd.received p.received_amount,
                 transaction_hash := jsSet pd.txHash p.transaction_hash,
                 confirmations := pd.confirmations.getD p.confirmations,
                 confirmed_at := some now }
      let order1 : Order :=
        { order with payment_status := "confirmed",
                     transaction_hash := jsSet pd.txHash order.transaction_hash,
                     order_status := "paid" }
      match createPrintfulOrder printful order1 with
      | (.ok order2, effs) =>
          ⟨some order2, payment', effs ++ [Effect.confirmationEmail]⟩
      | (.error _, effs) => ⟨some order1, payment', effs⟩
    else if pd.status = "confirming" then
      let payment' := payment?.map fun p =>
        { p with status := "confirming", detected_at := some now }
      ⟨some { order with payment_status := "confirming" }, payment', []⟩
    else if pd.status = "expired" then
      let payment' := payment?.map fun p => { p with status := "expired" }
      ⟨some { order with payment_status := "expired",
                         order_status := "cancelled" },
        payment', [Effect.cancellationEmail]⟩
    else ⟨some order, payment?, []⟩

/-- `verifyPayment` (payment controller, admin route): manual confirmation.
Rejected when the order is already confirmed and `force` is not set;
otherwise the payment and order are moved to confirmed/paid. `amount` and
`txh` fall back through JS `||` to the stored values. -/
def verifyPayment (now : ℕ) (force : Bool) (txh : Option String)
    (amount : Option ℚ) (o : Order) (p : Payment) :
    Except String (Order × Payment) :=
  if o.payment_status = "confirmed" ∧ force = false then
    .error "Payment already confirmed"
  else
    .ok ({ o with payment_status := "confirmed",
                  transaction_hash := jsOrStr txh o.transaction_hash,
                  order_status := "paid" },
         { p with status := "confirmed",
                  transaction_hash := jsOrStr txh p.transaction_hash,
                  received_amount := some (jsOrRat amount p.expected_amount),
                  confirmed_at := some now })

/-- Result record of `decredService.checkPayment` (decredService.js:96-127):
`received` is the amount with the required confirmations, `unconfirmed` the
0-confirmation total reported by the wallet RPC. -/
structure CheckResult where
  received : ℚ
  pending : ℚ
  total : ℚ
  expected : ℚ
  isComplete : Bool
  isPending : Bool
  isUnderpaid : Bool
deriving Repr, DecidableEq

/-- `checkPayment` classification given the two wallet-reported amounts. -/
def checkPayment (received unconfirmed expected : ℚ) : CheckResult :=
  { received := received
    pending := unconfirmed - received
    total := unconfirmed
    expected := expected
    isComplete := decide (expected ≤ received)
    isPending := decide (0 < unconfirmed - received)
    isUnderpaid := decide (0 < unconfirmed ∧ unconfirmed < expected) }

/-- One tick of the polling monitor's interval body
(decredService.js:248-281): emits a `confirmed` observation when
`isComplete`, a `confirming` observation when `isPending`, and nothing
otherwise. `txHash`/`txConfs` come from `listTransactions`; JS `||` replaces
a missing or zero confirmation count by `minConfirmations`. -/
def pollTick (received unconfirmed expected : ℚ) (txHash : Option String)
    (txConfs : Option ℕ) (minConfirmations : ℕ) : Option PaymentData :=
  let status := checkPayment received unconfirmed expected
  if status.isComplete then
    some { status := "confirmed", received := some status.received,
           txHash := txHash,
           confirmations := some (jsOrNat txConfs minConfirmations) }
  else if status.isPending then
    some { status := "confirming", received := some status.total,
           txHash := none, confirmations := none }
  else none

/-- One entry of the `monitoredAddresses` map: the interval timer id and the
timeout timer id stored by `startMonitoring`. -/
structure MonitorEntry where
  checkInterval : ℕ
  timeout : ℕ
deriving Repr, DecidableEq

/-- State of the Decred monitoring service: the `monitoredAddresses` JS Map
(at most one entry per order id, modelled as an association list whose keyed
deletion removes the key), the set of timer ids handed to
`clearInterval`/`clearTimeout` so far, and a fresh-id counter standing in for
`setInterval`/`setTimeout` handle allocation. -/
structure MonState where
  monitoredAddresses : List (String × MonitorEntry)
  cancelled : List ℕ
  nextTimer : ℕ
deriving Repr, DecidableEq

/-- `this.monitoredAddresses.get(orderId)`. -/
def getMonitor (s : MonState) (orderId : String) : Option MonitorEntry :=
  (s.monitoredAddresses.find? (fun e => e.1 = orderId)).map Prod.snd

/-- `stopMonitoring` (decredService.js:304-313): if an entry exists, clear
its interval and its timeout and delete the map entry. -/
def stopMonitoring (s : MonState) (orderId : String) : MonState :=
  match getMonitor s orderId with
  | some m =>
      { s with
        monitoredAddresses := s.monitoredAddresses.filter (fun e => ¬ e.1 = orderId),
        cancelled := m.checkInterval :: m.timeout :: s.cancelled }
  | none => s

/-- `startMonitoring` (decredService.js:244-298), registry part: first
`stopMonitoring(orderId)` clears any existing monitor, then a fresh interval
and a fresh timeout are created and stored under the order id. -/
def startMonitoring (s : MonState) (orderId : String) : MonState :=
  let s1 := stopMonitoring s orderId
  { s1 with
    monitoredAddresses :=
      (orderId, ⟨s1.nextTimer, s1.nextTimer + 1⟩) :: s1.monitoredAddresses,
    nextTimer := s1.nextTimer + 2 }

/-- The sweep's per-payment body (`cleanupExpiredPayments`, payment
controller): set the payment to `expired`, set the order to
`expired`/`cancelled` directly, and stop the monitor. It does not route
through `handlePaymentUpdate` and requests no e-mail. -/
def cleanupOne (orderId : String) (p : Payment) (o : Order) :
    Payment × Order × List Effect :=
  ({ p with status := "expired" },
   { o with payment_status := "expired", order_status := "cancelled" },
   [Effect.stopMonitor orderId])

/-- The sweep's selection predicate: `status = 'pending'` and
`expires_at < now`. -/
def sweepSelects (now : ℕ) (p : Payment) : Bool :=
  p.status = "pending" ∧ p.expires_at < now

/-- The live expiry path: the timeout set by `startMonitoring`
(decredService.js:284-287) fires, calls `stopMonitoring(orderId)` and then
delivers an `expired` observation to `handlePaymentUpdate`. -/
def liveExpiry (orderId : String) (now : ℕ) (printful : Except Unit ℕ)
    (o : Order) (p : Payment) : UpdateResult :=
  let r := handlePaymentUpdate now printful (some o) (some p)
    { status := "expired", received := none, txHash := none, confirmations := none }
  { r with effects := Effect.stopMonitor orderId :: r.effects }

/-- `Payment.isAmountSufficient(tolerance = 1)` (Payment.js:34-38). The JS
guard `if (!this.received_amount) return false` is a falsiness check: both a
missing (null) amount and a zero amount short-circuit to `false`. -/
def isAmountSufficient (received_amount : Option ℚ) (expected_amount : ℚ)
    (tolerance : ℚ := 1) : Bool :=
  match received_amount with
  | none => false
  | some r =>
      if r = 0 then false
      else decide (expected_amount * (1 - tolerance / 100) ≤ r)

/-! ## Helper lemmas on the monitor registry -/

lemma stopMonitoring_of_some {s : MonState} {orderId : String} {m : MonitorEntry}
    (h : getMonitor s orderId = some m) :
    stopMonitoring s orderId =
      { s with
        monitoredAddresses :=
          s.monitoredAddresses.filter (fun e => ¬ e.1 = orderId),
        cancelled := m.checkInterval :: m.timeout :: s.cancelled } := by
  unfold stopMonitoring
  rw [h]

lemma stopMonitoring_of_none {s : MonState} {orderId : String}
    (h : getMonitor s orderId = none) :
    stopMonitoring s orderId = s := by
  unfold stopMonitoring
  rw [h]

lemma startMonitoring_cancelled (s : MonState) (orderId : String) :
    (startMonitoring s orderId).cancelled = (stopMonitoring s orderId).cancelled :=
  rfl

lemma countP_stopMonitoring (s : MonState) (orderId : String) :
    (stopMonitoring s orderId).monitoredAddresses.countP
      (fun e => e.1 = orderId) = 0 := by
  rw [List.countP_eq_zero]
  intro a ha
  cases hg : getMonitor s orderId with
  | some m =>
      rw [stopMonitoring_of_some hg] at ha
      have := List.of_mem_filter ha
      simpa using this
  | none =>
      rw [stopMonitoring_of_none hg] at ha
      simp only [getMonitor, Option.map_eq_none', List.find?_eq_none] at hg
      simpa using hg a ha

/-! ## Claim C1 — monotonicity of a confirmed payment -/

/-- Claim C1 counterexample: an order whose `payment_status` is already
`confirmed` receives a late `expired` observation, and `handlePaymentUpdate`
moves its `payment_status` away from `confirmed` (to `expired`), contrary to
the claimed monotonicity. -/
theorem c1_counterexample :
    ((handlePaymentUpdate 3 (.ok 9)
        (some ⟨"confirmed", "paid", some "t", some "7"⟩)
        (some ⟨"confirmed", 5, some 5, some "t", 2, some 1, some 2, 100⟩)
        ⟨"expired", none, none, none⟩).order.map Order.payment_status)
      ≠ some "confirmed" := by decide

/-- Claim C1 amended: `handlePaymentUpdate` applies every observation
unconditionally, with no terminal-state guard. For an order already
`confirmed`, redelivering a `confirmed` observation leaves `payment_status`
at `confirmed`, but a later `confirming` observation moves it to
`confirming`, and a later `expired` observation moves it to `expired` and
the order to `cancelled`. -/
theorem c1_amended (now : ℕ) (pf : Except Unit ℕ) (os : String)
    (th pid : Option String) (p? : Option Payment)
    (rcv : Option ℚ) (tx : Option String) (cf : Option ℕ) :
    ((handlePaymentUpdate now pf (some ⟨"confirmed", os, th, pid⟩) p?
        ⟨"confirmed", rcv, tx, cf⟩).order.map Order.payment_status = some "confirmed")
    ∧ ((handlePaymentUpdate now pf (some ⟨"confirmed", os, th, pid⟩) p?
        ⟨"confirming", none, none, none⟩).order.map Order.payment_status = some "confirming")
    ∧ ((handlePaymentUpdate now pf (some ⟨"confirmed", os, th, pid⟩) p?
        ⟨"expired", none, none, none⟩).order = some ⟨"expired", "cancelled", th, pid⟩) := by
  refine ⟨?_, ?_, ?_⟩ <;> cases pf <;>
    simp [handlePaymentUpdate, createPrintfulOrder]

/-! ## Claim C2 — at-most-one fulfillment creation -/

/-- Claim C2 counterexample: redelivering the identical `confirmed`
observation to `handlePaymentUpdate` submits the Printful fulfillment-order
creation a second time — two submissions in total, not at most one, and no
check of `printful_order_id` gates the second submission. -/
theorem c2_counterexample :
    ((handlePaymentUpdate 10 (.ok 9)
        (some ⟨"pending", "pending_payment", none, none⟩)
        (some ⟨"pending", 5, none, none, 0, none, none, 100⟩)
        ⟨"confirmed", some 5, some "t", some 2⟩).effects
      ++ (handlePaymentUpdate 11 (.ok 9)
        (handlePaymentUpdate 10 (.ok 9)
          (some ⟨"pending", "pending_payment", none, none⟩)
          (some ⟨"pending", 5, none, none, 0, none, none, 100⟩)
          ⟨"confirmed", some 5, some "t", some 2⟩).order
        (handlePaymentUpdate 10 (.ok 9)
          (some ⟨"pending", "pending_payment", none, none⟩)
          (some ⟨"pending", 5, none, none, 0, none, none, 100⟩)
          ⟨"confirmed", some 5, some "t", some 2⟩).payment
        ⟨"confirmed", some 5, some "t", some 2⟩).effects).count
      Effect.createFulfillment = 2 := by decide

/-- Claim C2 amended: every delivery of a `confirmed` observation submits
exactly one fulfillment-order creation, whatever the current
`payment_status` and whatever the stored `printful_order_id` — the side
effect is not gated on the persisted state, so n redeliveries submit n
creations. -/
theorem c2_amended (now : ℕ) (pf : Except Unit ℕ) (ps os : String)
    (th pid : Option String) (p? : Option Payment) (rcv : Option ℚ)
    (tx : Option String) (cf : Option ℕ) :
    (handlePaymentUpdate now pf (some ⟨ps, os, th, pid⟩) p?
        ⟨"confirmed", rcv, tx, cf⟩).effects.count Effect.createFulfillment = 1 := by
  cases pf <;> simp [handlePaymentUpdate, createPrintfulOrder, List.count]

/-! ## Claim C3 — expiry is not terminal for the automatic path -/

/-- Claim C3 counterexample: a payment whose status is `expired` receives a
later `confirmed` observation through `handlePaymentUpdate` (the automatic
reconciliation path) and leaves `expired`: its status becomes `confirmed`,
contrary to the claim that only the admin `verifyPayment` action may do
that. -/
theorem c3_counterexample :
    ((handlePaymentUpdate 3 (.ok 9)
        (some ⟨"expired", "cancelled", none, none⟩)
        (some ⟨"expired", 5, none, none, 0, none, none, 100⟩)
        ⟨"confirmed", some 5, some "t", some 2⟩).payment.map Payment.status
      = some "confirmed")
    ∧ ((handlePaymentUpdate 3 (.ok 9)
        (some ⟨"expired", "cancelled", none, none⟩)
        (some ⟨"expired", 5, none, none, 0, none, none, 100⟩)
        ⟨"confirmed", some 5, some "t", some 2⟩).payment.map Payment.status
      ≠ some "expired") := by decide

/-- Claim C3 amended: an `expired` payment is not terminal under the
automatic path. `handlePaymentUpdate` applies a later `confirmed`
observation (payment becomes `confirmed`) and a later `confirming`
observation (payment becomes `confirming`) without any guard; the admin
`verifyPayment` action also moves an expired payment to `confirmed`. -/
theorem c3_amended (now : ℕ) (pf : Except Unit ℕ) (os : String)
    (th pid : Option String) (ea : ℚ) (ra : Option ℚ) (pth : Option String)
    (cfs : ℕ) (da ca : Option ℕ) (ex : ℕ) (rcv : Option ℚ)
    (tx : Option String) (cf : Option ℕ) (force : Bool)
    (vtx : Option String) (vamt : Option ℚ) :
    ((handlePaymentUpdate now pf (some ⟨"expired", os, th, pid⟩)
        (some ⟨"expired", ea, ra, pth, cfs, da, ca, ex⟩)
        ⟨"confirmed", rcv, tx, cf⟩).payment.map Payment.status = some "confirmed")
    ∧ ((handlePaymentUpdate now pf (some ⟨"expired", os, th, pid⟩)
        (some ⟨"expired", ea, ra, pth, cfs, da, ca, ex⟩)
        ⟨"confirming", none, none, none⟩).payment.map Payment.status = some "confirming")
    ∧ (∃ o2 p2,
        verifyPayment now force vtx vamt ⟨"expired", os, th, pid⟩
            ⟨"expired", ea, ra, pth, cfs, da, ca, ex⟩ = .ok (o2, p2)
        ∧ p2.status = "confirmed" ∧ o2.payment_status = "confirmed") := by
  refine ⟨?_, ?_, ?_⟩
  · cases pf <;> simp [handlePaymentUpdate, createPrintfulOrder]
  · simp [handlePaymentUpdate]
  · exact ⟨⟨"confirmed", "paid", jsOrStr vtx th, pid⟩,
      ⟨"confirmed", ea, some (jsOrRat vamt ea), jsOrStr vtx pth, cfs, da, some now, ex⟩,
      by simp [verifyPayment], rfl, rfl⟩

/-! ## Claim C4 — sweep vs live-monitor expiry -/

/-- Claim C4 counterexample: for a pending payment past its expiry, the
sweep (`cleanupExpiredPayments`) requests no cancellation notification,
while the live-monitor path (timeout + `handlePaymentUpdate`) does — the two
expiry paths do not produce the same side-effect requests. -/
theorem c4_counterexample :
    sweepSelects 61 ⟨"pending", 5, none, none, 0, none, none, 60⟩ = true
    ∧ Effect.cancellationEmail ∉
        (cleanupOne "ord" ⟨"pending", 5, none, none, 0, none, none, 60⟩
          ⟨"pending", "pending_payment", none, none⟩).2.2
    ∧ Effect.cancellationEmail ∈
        (liveExpiry "ord" 61 (.ok 9)
          ⟨"pending", "pending_payment", none, none⟩
          ⟨"pending", 5, none, none, 0, none, none, 60⟩).effects := by decide

/-- Claim C4 amended: for a pending payment past its expiry, the sweep and
the live-monitor expiry path produce identical final payment and order
records (payment `expired`, order `expired`/`cancelled`) and both request a
monitor stop, but only the live path requests the cancellation notification;
the sweep updates state directly instead of routing through
`handlePaymentUpdate` and sends no email. -/
theorem c4_amended (orderId : String) (now : ℕ) (pf : Except Unit ℕ)
    (p : Payment) (o : Order) (hp : p.status = "pending")
    (he : p.expires_at < now) :
    sweepSelects now p = true
    ∧ (liveExpiry orderId now pf o p).payment = some (cleanupOne orderId p o).1
    ∧ (liveExpiry orderId now pf o p).order = some (cleanupOne orderId p o).2.1
    ∧ Effect.stopMonitor orderId ∈ (cleanupOne orderId p o).2.2
    ∧ Effect.stopMonitor orderId ∈ (liveExpiry orderId now pf o p).effects
    ∧ Effect.cancellationEmail ∈ (liveExpiry orderId now pf o p).effects
    ∧ Effect.cancellationEmail ∉ (cleanupOne orderId p o).2.2 := by
  refine ⟨by simp [sweepSelects, hp, he], ?_, ?_, ?_, ?_, ?_, ?_⟩ <;>
    simp [liveExpiry, handlePaymentUpdate, cleanupOne]

/-- Claim C4 witness: the amended statement instantiated at a concrete
pending payment whose expiry (minute 60) has passed at minute 61. -/
theorem c4_amended_witness :
    sweepSelects 61 ⟨"pending", 5, none, none, 0, none, none, 60⟩ = true
    ∧ (liveExpiry "ord" 61 (.ok 9) ⟨"pending", "pending_payment", none, none⟩
        ⟨"pending", 5, none, none, 0, none, none, 60⟩).payment
      = some (cleanupOne "ord" ⟨"pending", 5, none, none, 0, none, none, 60⟩
          ⟨"pending", "pending_payment", none, none⟩).1
    ∧ (liveExpiry "ord" 61 (.ok 9) ⟨"pending", "pending_payment", none, none⟩
        ⟨"pending", 5, none, none, 0, none, none, 60⟩).order
      = some (cleanupOne "ord" ⟨"pending", 5, none, none, 0, none, none, 60⟩
          ⟨"pending", "pending_payment", none, none⟩).2.1
    ∧ Effect.stopMonitor "ord" ∈
        (cleanupOne "ord" ⟨"pending", 5, none, none, 0, none, none, 60⟩
          ⟨"pending", "pending_payment", none, none⟩).2.2
    ∧ Effect.stopMonitor "ord" ∈
        (liveExpiry "ord" 61 (.ok 9) ⟨"pending", "pending_payment", none, none⟩
          ⟨"pending", 5, none, none, 0, none, none, 60⟩).effects
    ∧ Effect.cancellationEmail ∈
        (liveExpiry "ord" 61 (.ok 9) ⟨"pending", "pending_payment", none, none⟩
          ⟨"pending", 5, none, none, 0, none, none, 60⟩).effects
    ∧ Effect.cancellationEmail ∉
        (cleanupOne "ord" ⟨"pending", 5, none, none, 0, none, none, 60⟩
          ⟨"pending", "pending_payment", none, none⟩).2.2 :=
  c4_amended "ord" 61 (.ok 9) ⟨"pending", 5, none, none, 0, none, none, 60⟩
    ⟨"pending", "pending_payment", none, none⟩ rfl (by decide)

/-! ## Claim C5 — singleton monitor registry -/

/-- Claim C5: after `startMonitoring` for an order id the registry holds
exactly one entry for that id, the prior monitor's interval and timeout (if
any) having been cancelled; and `stopMonitoring` cancels both timers of the
id's entry and removes it from the registry. -/
theorem c5_singleton (s : MonState) (orderId : String) :
    ((startMonitoring s orderId).monitoredAddresses.countP
        (fun e => e.1 = orderId) = 1)
    ∧ (∀ m, getMonitor s orderId = some m →
        m.checkInterval ∈ (startMonitoring s orderId).cancelled
        ∧ m.timeout ∈ (startMonitoring s orderId).cancelled)
    ∧ getMonitor (stopMonitoring s orderId) orderId = none
    ∧ (∀ m, getMonitor s orderId = some m →
        m.checkInterval ∈ (stopMonitoring s orderId).cancelled
        ∧ m.timeout ∈ (stopMonitoring s orderId).cancelled) := by
  refine ⟨?_, ?_, ?_, ?_⟩
  · simp [startMonitoring, List.countP_cons, countP_stopMonitoring]
  · intro m hm
    rw [startMonitoring_cancelled, stopMonitoring_of_some hm]
    constructor
    · simp
    · simp
  · cases hg : getMonitor s orderId with
    | some m =>
        simp only [getMonitor]
        rw [stopMonitoring_of_some hg]
        rw [List.find?_eq_none.mpr]
        · rfl
        · intro a ha
          have := List.of_mem_filter ha
          simpa using this
    | none => rw [stopMonitoring_of_none hg]; exact hg
  · intro m hm
    rw [stopMonitoring_of_some hm]
    constructor
    · simp
    · simp

/-- Claim C5 witness: a registry holding a monitor (interval id 0, timeout
id 1) for order "a"; restarting cancels both timers and leaves one entry,
and stopping removes the entry. -/
theorem c5_singleton_witness :
    0 ∈ (startMonitoring ⟨[("a", ⟨0, 1⟩)], [], 2⟩ "a").cancelled
    ∧ 1 ∈ (startMonitoring ⟨[("a", ⟨0, 1⟩)], [], 2⟩ "a").cancelled
    ∧ ((startMonitoring ⟨[("a", ⟨0, 1⟩)], [], 2⟩ "a").monitoredAddresses.countP
        (fun e => e.1 = "a") = 1)
    ∧ getMonitor (stopMonitoring ⟨[("a", ⟨0, 1⟩)], [], 2⟩ "a") "a" = none :=
  ⟨((c5_singleton ⟨[("a", ⟨0, 1⟩)], [], 2⟩ "a").2.1 ⟨0, 1⟩ rfl).1,
   ((c5_singleton ⟨[("a", ⟨0, 1⟩)], [], 2⟩ "a").2.1 ⟨0, 1⟩ rfl).2,
   (c5_singleton ⟨[("a", ⟨0, 1⟩)], [], 2⟩ "a").1,
   (c5_singleton ⟨[("a", ⟨0, 1⟩)], [], 2⟩ "a").2.2.1⟩

/-! ## Claim C6 — fulfillment failure never rolls back payment state -/

/-- Claim C6: when the Printful submission fails after a `confirmed`
observation has been applied, the payment keeps status `confirmed` and the
order keeps `payment_status = confirmed` and `order_status = paid`; nothing
is rolled back (the error is caught by the handler's try/catch). -/
theorem c6_no_rollback (now : ℕ) (o : Order) (p : Payment)
    (rcv : Option ℚ) (tx : Option String) (cf : Option ℕ) :
    ((handlePaymentUpdate now (.error ()) (some o) (some p)
        ⟨"confirmed", rcv, tx, cf⟩).payment.map Payment.status = some "confirmed")
    ∧ ((handlePaymentUpdate now (.error ()) (some o) (some p)
        ⟨"confirmed", rcv, tx, cf⟩).order.map Order.payment_status = some "confirmed")
    ∧ ((handlePaymentUpdate now (.error ()) (some o) (some p)
        ⟨"confirmed", rcv, tx, cf⟩).order.map Order.order_status = some "paid") := by
  refine ⟨?_, ?_, ?_⟩ <;> simp [handlePaymentUpdate, createPrintfulOrder]

/-! ## Claim C7 — underpayment scenario -/

/-- Claim C7 counterexample: the wallet reports 4.0 received against an
expected 5.0. When the 4.0 is still unconfirmed the poll tick emits a
`confirming` observation and the payment's status becomes `confirming`, not
`underpaid` (no code path produces `underpaid`); the order stays at
`pending_payment`. When the 4.0 is fully confirmed the tick emits nothing at
all. -/
theorem c7_counterexample :
    pollTick 0 4 5 none none 2 = some ⟨"confirming", some 4, none, none⟩
    ∧ ((handlePaymentUpdate 7 (.ok 9)
        (some ⟨"pending", "pending_payment", none, none⟩)
        (some ⟨"pending", 5, none, none, 0, none, none, 100⟩)
        ⟨"confirming", some 4, none, none⟩).payment.map Payment.status
          ≠ some "underpaid")
    ∧ ((handlePaymentUpdate 7 (.ok 9)
        (some ⟨"pending", "pending_payment", none, none⟩)
        (some ⟨"pending", 5, none, none, 0, none, none, 100⟩)
        ⟨"confirming", some 4, none, none⟩).order.map Order.order_status
          = some "pending_payment")
    ∧ pollTick 4 4 5 none none 2 = none :=
  ⟨by norm_num [pollTick, checkPayment], by decide, by decide,
   by norm_num [pollTick, checkPayment]⟩

/-- Claim C7 amended: with expected amount 5.0 and confirmed-received below
5.0, any observation the poll tick emits is `confirming`; applying it leaves
`order_status` unchanged, requests no fulfillment creation, and sets the
payment's status to `confirming` — never to `underpaid`. -/
theorem c7_insufficient (received unconfirmed : ℚ) (h : received < 5)
    (txh : Option String) (tcf : Option ℕ) (mc now : ℕ) (pf : Except Unit ℕ)
    (o : Order) (p : Payment) (pd : PaymentData)
    (hpd : pollTick received unconfirmed 5 txh tcf mc = some pd) :
    pd.status = "confirming"
    ∧ (handlePaymentUpdate now pf (some o) (some p) pd).effects = []
    ∧ (handlePaymentUpdate now pf (some o) (some p) pd).order.map Order.order_status
        = some o.order_status
    ∧ (handlePaymentUpdate now pf (some o) (some p) pd).payment.map Payment.status
        = some "confirming" := by
  have hc : ¬ ((5:ℚ) ≤ received) := not_le.mpr h
  simp only [pollTick, checkPayment] at hpd
  rw [if_neg (by simpa using hc)] at hpd
  split at hpd
  · rw [Option.some_inj] at hpd
    subst hpd
    refine ⟨rfl, ?_, ?_, ?_⟩ <;> simp [handlePaymentUpdate]
  · simp at hpd

/-- Claim C7 witness: the amended statement instantiated at 4.0 unconfirmed
against expected 5.0, the tick emitting a `confirming` observation. -/
theorem c7_insufficient_witness :
    (⟨"confirming", some 4, none, none⟩ : PaymentData).status = "confirming"
    ∧ (handlePaymentUpdate 7 (.ok 9)
        (some ⟨"pending", "pending_payment", none, none⟩)
        (some ⟨"pending", 5, none, none, 0, none, none, 100⟩)
        ⟨"confirming", some 4, none, none⟩).effects = []
    ∧ (handlePaymentUpdate 7 (.ok 9)
        (some ⟨"pending", "pending_payment", none, none⟩)
        (some ⟨"pending", 5, none, none, 0, none, none, 100⟩)
        ⟨"confirming", some 4, none, none⟩).order.map Order.order_status
        = some (Order.order_status ⟨"pending", "pending_payment", none, none⟩)
    ∧ (handlePaymentUpdate 7 (.ok 9)
        (some ⟨"pending", "pending_payment", none, none⟩)
        (some ⟨"pending", 5, none, none, 0, none, none, 100⟩)
        ⟨"confirming", some 4, none, none⟩).payment.map Payment.status
        = some "confirming" :=
  c7_insufficient 0 4 (by norm_num) none none 2 7 (.ok 9)
    ⟨"pending", "pending_payment", none, none⟩
    ⟨"pending", 5, none, none, 0, none, none, 100⟩
    ⟨"confirming", some 4, none, none⟩
    (by norm_num [pollTick, checkPayment])

/-! ## Claim C8 — poll-tick classification -/

/-- Claim C8: for a positive expected amount, the poll tick emits a
`confirmed` observation exactly when confirmed-received ≥ expected
(`isComplete`); it emits a `confirming` observation whenever the pending
amount (unconfirmed minus confirmed) is positive and the payment is not
complete; and it emits nothing when nothing has been received yet. -/
theorem c8_tick (received unconfirmed expected : ℚ) (txh : Option String)
    (tcf : Option ℕ) (mc : ℕ) (hexp : 0 < expected) :
    ((∃ pd, pollTick received unconfirmed expected txh tcf mc = some pd
        ∧ pd.status = "confirmed") ↔ expected ≤ received)
    ∧ ((0 < unconfirmed - received ∧ ¬ expected ≤ received) →
        ∃ pd, pollTick received unconfirmed expected txh tcf mc = some pd
          ∧ pd.status = "confirming")
    ∧ (received = 0 ∧ unconfirmed = 0 →
        pollTick received unconfirmed expected txh tcf mc = none) := by
  by_cases hc : expected ≤ received
  · have ht : pollTick received unconfirmed expected txh tcf mc =
        some ⟨"confirmed", some received, txh, some (jsOrNat tcf mc)⟩ := by
      simp only [pollTick, checkPayment]
      rw [if_pos (by simpa using hc)]
    refine ⟨?_, ?_, ?_⟩
    · simp [ht, hc]
    · intro hcontra
      exact absurd hc hcontra.2
    · rintro ⟨h0, _⟩
      rw [h0] at hc
      exact absurd (lt_of_lt_of_le hexp hc) (lt_irrefl 0)
  · by_cases hp : 0 < unconfirmed - received
    · have ht : pollTick received unconfirmed expected txh tcf mc =
          some ⟨"confirming", some unconfirmed, none, none⟩ := by
        simp only [pollTick, checkPayment]
        rw [if_neg (by simpa using hc), if_pos (by simpa using hp)]
      refine ⟨?_, ?_, ?_⟩
      · simp [ht, hc]
      · intro _
        exact ⟨_, ht, rfl⟩
      · rintro ⟨h0, h1⟩
        rw [h0, h1] at hp
        simp at hp
    · have ht : pollTick received unconfirmed expected txh tcf mc = none := by
        simp only [pollTick, checkPayment]
        rw [if_neg (by simpa using hc), if_neg (by simpa using hp)]
      refine ⟨?_, ?_, ?_⟩
      · simp [ht, hc]
      · intro hcontra
        exact absurd hcontra.1 hp
      · intro _
        exact ht

/-- Claim C8 witness: concrete ticks against expected 5 — 5.0 confirmed
emits `confirmed`, 4.0 unconfirmed emits `confirming`, and nothing received
emits no observation. -/
theorem c8_tick_witness :
    (∃ pd, pollTick 5 5 5 (some "t") (some 2) 2 = some pd
        ∧ pd.status = "confirmed")
    ∧ (∃ pd, pollTick 0 4 5 (some "t") (some 2) 2 = some pd
        ∧ pd.status = "confirming")
    ∧ pollTick 0 0 5 (some "t") (some 2) 2 = none :=
  ⟨(c8_tick 5 5 5 (some "t") (some 2) 2 (by norm_num)).1.mpr (by norm_num),
   (c8_tick 0 4 5 (some "t") (some 2) 2 (by norm_num)).2.1 ⟨by norm_num, by norm_num⟩,
   (c8_tick 0 0 5 (some "t") (some 2) 2 (by norm_num)).2.2 ⟨rfl, rfl⟩⟩

/-! ## Claim C9 — amount-sufficiency tolerance -/

/-- Claim C9 counterexample: a payment record with a non-null received
amount of 0 against expected 5 and tolerance 100 satisfies the claimed
condition (received ≥ expected × (1 − t/100) = 0) yet `isAmountSufficient`
returns false, because the JS guard `!this.received_amount` treats the
number 0 as falsy, not only null. -/
theorem c9_counterexample :
    ¬ ((isAmountSufficient (some 0) 5 100 = true) ↔
        (some (0:ℚ) ≠ none ∧ 5 * (1 - 100 / 100) ≤ (0:ℚ))) := by
  intro hiff
  have hb : isAmountSufficient (some 0) 5 100 = true :=
    hiff.mpr ⟨by simp, by norm_num⟩
  simp [isAmountSufficient] at hb

/-- Claim C9 amended: `isAmountSufficient` returns true iff the received
amount is non-null, nonzero (the JS falsiness guard), and at least
expected × (1 − t/100); the tolerance is a parameter defaulting to 1
percent. -/
theorem c9_tolerance (r : Option ℚ) (e t : ℚ) :
    (isAmountSufficient r e t = true ↔
      ∃ v, r = some v ∧ v ≠ 0 ∧ e * (1 - t / 100) ≤ v)
    ∧ isAmountSufficient r e = isAmountSufficient r e 1 := by
  refine ⟨?_, rfl⟩
  cases r with
  | none => simp [isAmountSufficient]
  | some v =>
      by_cases hv : v = 0 <;> simp [isAmountSufficient, hv]

/-! ## Claim C10 — frame property for unknown observation statuses -/

/-- Claim C10: an observation whose status is none of `confirmed`,
`confirming`, `expired` leaves both the order and the payment record
unchanged and requests no side effect at all. -/
theorem c10_frame (now : ℕ) (pf : Except Unit ℕ) (order? : Option Order)
    (payment? : Option Payment) (pd : PaymentData)
    (h1 : pd.status ≠ "confirmed") (h2 : pd.status ≠ "confirming")
    (h3 : pd.status ≠ "expired") :
    handlePaymentUpdate now pf order? payment? pd = ⟨order?, payment?, []⟩ := by
  cases order? with
  | none => rfl
  | some o => simp [handlePaymentUpdate, h1, h2, h3]

/-- Claim C10 witness: a `detected` observation leaves a pending order and
payment untouched with no effects. -/
theorem c10_frame_witness :
    handlePaymentUpdate 0 (.ok 1)
      (some ⟨"pending", "pending_payment", none, none⟩)
      (some ⟨"pending", 5, none, none, 0, none, none, 100⟩)
      ⟨"detected", none, none, none⟩
    = ⟨some ⟨"pending", "pending_payment", none, none⟩,
       some ⟨"pending", 5, none, none, 0, none, none, 100⟩, []⟩ :=
  c10_frame 0 (.ok 1) _ _ _ (by decide) (by decide) (by decide)

end Artisan
